import Mathlib

/-!
Verification of the TaskBrain task-orchestration library against its
natural-language specification.

The repository ships the result wrapper (brain/task_output.py) and an
example orchestrator (mainbrain.py, main.py). The Brain base class itself
(task decorator, facade scanning, cooperative scheduler, process worker
harness, shared-state registry, deferred-loop splitter) is not part of the
shipped sources, so those components are modelled from the specification
text; each such definition carries a doc comment saying so. Everything
about TaskOutput is translated directly from brain/task_output.py.
-/

/-- Modelled from the spec: the ExecutionStates enumeration lives in
brain/execution_states.py, which is absent from the shipped sources; the
spec data model gives its members as SUCCESS, ERROR_OCCURRED, TIMEOUT. -/
inductive ExecutionStates where
  | SUCCESS
  | ERROR_OCCURRED
  | TIMEOUT
deriving DecidableEq, Repr

/-- A Python value as it can appear in the result field of a TaskOutput:
the None object, an integer, a string, a member of the ExecutionStates
enumeration, a worker-local handle that cannot cross the process boundary,
or the sentinel a harness stores when a result could not be transferred.
Python equality on these values is structural, and an enumeration member
is equal only to itself. -/
inductive PyValue where
  | none
  | int (n : Int)
  | str (s : String)
  | state (e : ExecutionStates)
  | localHandle (id : Nat)
  | unavailable
deriving DecidableEq, Repr

/-- Translated from brain/task_output.py: TaskOutput stores the returned
value and the execution state, both set once at construction. -/
structure TaskOutput where
  result : PyValue
  execution_state : ExecutionStates
deriving DecidableEq, Repr

/-- Translated from brain/task_output.py: have_crashed compares the result
field, not the execution_state field, with ExecutionStates.ERROR_OCCURRED. -/
def TaskOutput.have_crashed (t : TaskOutput) : Bool :=
  t.result == PyValue.state ExecutionStates.ERROR_OCCURRED

/-- Translated from brain/task_output.py: have_timeout compares the result
field with ExecutionStates.TIMEOUT. -/
def TaskOutput.have_timeout (t : TaskOutput) : Bool :=
  t.result == PyValue.state ExecutionStates.TIMEOUT

/-- Translated from brain/task_output.py: is_success is the conjunction of
the negations of have_timeout and have_crashed. -/
def TaskOutput.is_success (t : TaskOutput) : Bool :=
  !t.have_timeout && !t.have_crashed

/-- C1 counterexample: a TaskOutput whose execution_state is ERROR_OCCURRED
but whose result field is None reports is_success true, so is_success does
not hold iff the state is SUCCESS. -/
theorem c1_counterexample :
    (TaskOutput.mk PyValue.none ExecutionStates.ERROR_OCCURRED).is_success = true ∧
    (TaskOutput.mk PyValue.none ExecutionStates.ERROR_OCCURRED).execution_state ≠
      ExecutionStates.SUCCESS := by
  decide

/-- C1 amended: for every TaskOutput, is_success returns true iff the
result field equals neither ExecutionStates.ERROR_OCCURRED nor
ExecutionStates.TIMEOUT; the execution_state field plays no role. -/
theorem c1_is_success_characterization (t : TaskOutput) :
    t.is_success = true ↔
      (t.result ≠ PyValue.state ExecutionStates.ERROR_OCCURRED ∧
       t.result ≠ PyValue.state ExecutionStates.TIMEOUT) := by
  simp [TaskOutput.is_success, TaskOutput.have_crashed, TaskOutput.have_timeout,
    and_comm]

/-- C9: have_crashed holds iff the result field equals ERROR_OCCURRED,
have_timeout holds iff the result field equals TIMEOUT, and whenever the
result is not an ExecutionStates member at all, is_success is true no
matter what execution_state holds. -/
theorem c9_result_field_semantics (t : TaskOutput) :
    (t.have_crashed = true ↔ t.result = PyValue.state ExecutionStates.ERROR_OCCURRED) ∧
    (t.have_timeout = true ↔ t.result = PyValue.state ExecutionStates.TIMEOUT) ∧
    ((∀ e : ExecutionStates, t.result ≠ PyValue.state e) → t.is_success = true) := by
  refine ⟨?_, ?_, ?_⟩
  · simp [TaskOutput.have_crashed]
  · simp [TaskOutput.have_timeout]
  · intro h
    simp [TaskOutput.is_success, TaskOutput.have_crashed, TaskOutput.have_timeout,
      h ExecutionStates.ERROR_OCCURRED, h ExecutionStates.TIMEOUT]

/-- C9 witness: evaluated on a TaskOutput carrying the integer 5 with
execution_state ERROR_OCCURRED, the result is not an enumeration member and
is_success is true regardless of the state. -/
theorem c9_result_field_semantics_witness :
    (TaskOutput.mk (PyValue.int 5) ExecutionStates.ERROR_OCCURRED).is_success = true :=
  (c9_result_field_semantics
      (TaskOutput.mk (PyValue.int 5) ExecutionStates.ERROR_OCCURRED)).2.2
    (by intro e; cases e <;> decide)

/-- C10: for every TaskOutput at most one of have_crashed and have_timeout
holds, and is_success holds iff neither does. -/
theorem c10_exclusive_failure_flags (t : TaskOutput) :
    ¬(t.have_crashed = true ∧ t.have_timeout = true) ∧
    (t.is_success = true ↔ ¬t.have_crashed = true ∧ ¬t.have_timeout = true) := by
  constructor
  · rintro ⟨hc, ht⟩
    simp [TaskOutput.have_crashed] at hc
    simp [TaskOutput.have_timeout] at ht
    rw [hc] at ht
    exact ExecutionStates.noConfusion (PyValue.state.inj ht)
  · simp [TaskOutput.is_success, and_comm]

/-- Modelled from the spec: the task declaration surface of the Brain base
class (the task configuration decorator), which is absent from the shipped
sources. A declaration attaches to a callable its name, whether it is a
suspending (async) callable, the recognized options process, run_on_start,
refresh_rate, timeout, define_loop_later and start_loop_marker, and the
declared body as a sequence of source lines. -/
structure TaskDecl where
  name : String
  isAsync : Bool
  process : Bool
  run_on_start : Bool
  refresh_rate : Option Nat
  timeout : Option Nat
  define_loop_later : Bool
  start_loop_marker : Option String
  body : List String
deriving DecidableEq, Repr

/-- Modelled from the spec: the taxonomy of configuration errors raised
synchronously at descriptor-build time. -/
inductive ConfigError where
  | asyncInIsolatedProcess (taskName : String)
  | deferredLoopNotAllowed (taskName : String)
  | missingMarker (taskName : String)
  | markerNotInBody (taskName : String) (marker : String)
deriving DecidableEq, Repr

/-- Modelled from the spec: the deferred-loop splitter partitions a declared
body at the first occurrence of the marker line into everything before it
(the setup block) and everything after it (the loop block), and reports
failure when the marker does not occur. -/
def splitAtMarker (body : List String) (marker : String) :
    Option (List String × List String) :=
  if marker ∈ body then
    some (body.takeWhile (fun line => line != marker),
          (body.dropWhile (fun line => line != marker)).tail)
  else
    Option.none

/-- Modelled from the spec: the outcome of the deferred-loop split kept in a
task descriptor. -/
structure DeferredSplit where
  marker : String
  setup_body : List String
  loop_body : List String
deriving DecidableEq, Repr

/-- Modelled from the spec: the immutable task descriptor built at facade
construction for each declared task. -/
structure TaskDescriptor where
  name : String
  process : Bool
  run_on_start : Bool
  refresh_rate : Option Nat
  timeout : Option Nat
  deferred : Option DeferredSplit
deriving DecidableEq, Repr

/-- Modelled from the spec: descriptor construction and validation for one
declared task. An isolated-process task must not be a suspending callable;
deferred-loop configuration is rejected unless the task is isolated-process
with a nonzero refresh interval, requires a marker, and the marker must
occur in the declared body. -/
def buildDescriptor (d : TaskDecl) : Except ConfigError TaskDescriptor :=
  if d.process && d.isAsync then
    Except.error (ConfigError.asyncInIsolatedProcess d.name)
  else if d.define_loop_later then
    if !d.process || d.refresh_rate.getD 0 == 0 then
      Except.error (ConfigError.deferredLoopNotAllowed d.name)
    else
      match d.start_loop_marker with
      | Option.none => Except.error (ConfigError.missingMarker d.name)
      | some m =>
        match splitAtMarker d.body m with
        | some sl =>
          Except.ok
            ⟨d.name, d.process, d.run_on_start, d.refresh_rate, d.timeout,
             some ⟨m, sl.1, sl.2⟩⟩
        | Option.none => Except.error (ConfigError.markerNotInBody d.name m)
  else
    Except.ok ⟨d.name, d.process, d.run_on_start, d.refresh_rate, d.timeout, Option.none⟩

/-- Modelled from the spec: facade construction scans every declared task in
declaration order and builds all descriptors, failing fast on the first
configuration error, before any task runs. -/
def buildDescriptors : List TaskDecl → Except ConfigError (List TaskDescriptor)
  | [] => Except.ok []
  | d :: rest =>
    match buildDescriptor d with
    | Except.error e => Except.error e
    | Except.ok td =>
      match buildDescriptors rest with
      | Except.error e => Except.error e
      | Except.ok tds => Except.ok (td :: tds)

/-- Modelled from the spec: the startup enumeration returns one invocable
handle per descriptor with run_on_start true, in declaration order. -/
def get_tasks (descriptors : List TaskDescriptor) : List TaskDescriptor :=
  descriptors.filter (fun td => td.run_on_start)

/-- If one declared task fails descriptor validation, facade construction as
a whole cannot succeed. -/
theorem buildDescriptors_error_of_mem {d : TaskDecl} {decls : List TaskDecl}
    (hmem : d ∈ decls) {e : ConfigError}
    (he : buildDescriptor d = Except.error e) :
    ∀ out, buildDescriptors decls ≠ Except.ok out := by
  induction decls with
  | nil => cases hmem
  | cons a rest ih =>
    intro out h
    cases hmem with
    | head =>
      rw [buildDescriptors, he] at h
      cases h
    | tail _ hm =>
      rw [buildDescriptors] at h
      cases hb : buildDescriptor a with
      | error e2 => rw [hb] at h; cases h
      | ok td =>
        rw [hb] at h
        cases hr : buildDescriptors rest with
        | error e2 => rw [hr] at h; cases h
        | ok tds => exact ih hm tds hr

/-- C4: the startup enumeration is exactly the startup-tagged descriptors:
it is a subsequence of the declaration order, every entry is startup-tagged,
every startup-tagged descriptor appears with unchanged multiplicity, and no
descriptor tagged run_on_start false appears. -/
theorem c4_get_tasks_startup_selection (descriptors : List TaskDescriptor) :
    List.Sublist (get_tasks descriptors) descriptors ∧
    (∀ td ∈ get_tasks descriptors, td.run_on_start = true) ∧
    (∀ td : TaskDescriptor, td.run_on_start = true →
      (get_tasks descriptors).count td = descriptors.count td) ∧
    (∀ td ∈ descriptors, td.run_on_start = false → td ∉ get_tasks descriptors) := by
  refine ⟨List.filter_sublist descriptors, ?_, ?_, ?_⟩
  · intro td hmem
    exact (List.mem_filter.mp hmem).2
  · intro td htag
    exact List.count_filter htag
  · intro td _ htag hmem
    rw [(List.mem_filter.mp hmem).2] at htag
    cases htag

/-- C4 witness: on a two-descriptor list with one startup task and one
on-demand task, the startup task keeps multiplicity one and the on-demand
task is excluded. -/
theorem c4_get_tasks_startup_selection_witness :
    (get_tasks
        [TaskDescriptor.mk "mp_start" false true Option.none Option.none Option.none,
         TaskDescriptor.mk "callable_function_1" false false Option.none Option.none
           Option.none]).count
        (TaskDescriptor.mk "mp_start" false true Option.none Option.none Option.none) =
      ([TaskDescriptor.mk "mp_start" false true Option.none Option.none Option.none,
        TaskDescriptor.mk "callable_function_1" false false Option.none Option.none
          Option.none].count
        (TaskDescriptor.mk "mp_start" false true Option.none Option.none Option.none)) ∧
    (TaskDescriptor.mk "callable_function_1" false false Option.none Option.none
        Option.none) ∉
      get_tasks
        [TaskDescriptor.mk "mp_start" false true Option.none Option.none Option.none,
         TaskDescriptor.mk "callable_function_1" false false Option.none Option.none
           Option.none] :=
  ⟨(c4_get_tasks_startup_selection _).2.2.1 _ rfl,
   (c4_get_tasks_startup_selection _).2.2.2 _ (by decide) rfl⟩

/-- C5: a declaration that is both a suspending callable and tagged for
isolated-process execution is rejected with a configuration error by
descriptor construction, and facade construction over any declaration list
containing it cannot succeed, before any task runs. -/
theorem c5_async_isolated_fails_fast (d : TaskDecl) (decls : List TaskDecl)
    (hmem : d ∈ decls) (hproc : d.process = true) (hasync : d.isAsync = true) :
    buildDescriptor d = Except.error (ConfigError.asyncInIsolatedProcess d.name) ∧
    ∀ out, buildDescriptors decls ≠ Except.ok out := by
  have he : buildDescriptor d =
      Except.error (ConfigError.asyncInIsolatedProcess d.name) := by
    rw [buildDescriptor, hproc, hasync]
    rfl
  exact ⟨he, buildDescriptors_error_of_mem hmem he⟩

/-- C5 witness: a suspending callable tagged process true is rejected, and
the one-declaration facade build fails. -/
theorem c5_async_isolated_fails_fast_witness :
    buildDescriptor
        (TaskDecl.mk "bad_async" true true true Option.none Option.none false
          Option.none []) =
      Except.error (ConfigError.asyncInIsolatedProcess "bad_async") ∧
    ∀ out,
      buildDescriptors
          [TaskDecl.mk "bad_async" true true true Option.none Option.none false
            Option.none []] ≠
        Except.ok out :=
  c5_async_isolated_fails_fast _ _ (by decide) rfl rfl

/-- C6: a deferred-loop declaration whose configured start_loop_marker does
not occur in the declared body is rejected with a configuration error at
descriptor-build time, and facade construction over any declaration list
containing it cannot succeed, so the failure happens at orchestrator
construction rather than at first execution. -/
theorem c6_marker_absent_fails_at_build (d : TaskDecl) (decls : List TaskDecl)
    (m : String) (hmem : d ∈ decls) (hdl : d.define_loop_later = true)
    (hmark : d.start_loop_marker = some m) (hnotin : m ∉ d.body)
    (hproc : d.process = true) (hasync : d.isAsync = false)
    (hrate : d.refresh_rate.getD 0 ≠ 0) :
    buildDescriptor d = Except.error (ConfigError.markerNotInBody d.name m) ∧
    ∀ out, buildDescriptors decls ≠ Except.ok out := by
  have he : buildDescriptor d =
      Except.error (ConfigError.markerNotInBody d.name m) := by
    rw [buildDescriptor, hproc, hasync, hdl, hmark]
    simp [splitAtMarker, hnotin, hrate]
  exact ⟨he, buildDescriptors_error_of_mem hmem he⟩

/-- C6 witness: a deferred-loop task whose marker line is absent from its
two-line body is rejected at build time. -/
theorem c6_marker_absent_fails_at_build_witness :
    buildDescriptor
        (TaskDecl.mk "sb_routine_with_setup" false true true (some 1) Option.none
          true (some "---Loop---") ["setup line", "loop line"]) =
      Except.error (ConfigError.markerNotInBody "sb_routine_with_setup" "---Loop---") ∧
    ∀ out,
      buildDescriptors
          [TaskDecl.mk "sb_routine_with_setup" false true true (some 1) Option.none
            true (some "---Loop---") ["setup line", "loop line"]] ≠
        Except.ok out :=
  c6_marker_absent_fails_at_build _ _ "---Loop---" (by decide) rfl rfl (by decide)
    rfl rfl (by decide)

/-- Modelled from the spec: what the body of a task does when invoked inside
an executor, cooperative or isolated: it either returns a value or raises an
uncaught exception carrying a message. -/
inductive BodyOutcome where
  | returns (v : PyValue)
  | raises (message : String)
deriving DecidableEq, Repr

/-- Modelled from the spec: which values can be marshalled across the
process boundary; a worker-local handle cannot, everything else here can,
including members of the ExecutionStates enumeration. -/
def transferable : PyValue → Bool
  | PyValue.localHandle _ => false
  | _ => true

/-- Modelled from the spec: on-demand invocation of an isolated-process
one-shot task. The worker runs the body once and reports a TaskOutput over
the IPC channel: a transferable returned value is carried in the result
field, a non-transferable one is replaced by the distinguishable
unavailable sentinel with the state still reported accurately, and an
uncaught failure is reported as ERROR_OCCURRED; the failure token is stored
in the result field because the shipped is_success tests that field. -/
def invokeIsolatedOneShot (b : BodyOutcome) : TaskOutput :=
  match b with
  | BodyOutcome.returns v =>
    if transferable v then TaskOutput.mk v ExecutionStates.SUCCESS
    else TaskOutput.mk PyValue.unavailable ExecutionStates.SUCCESS
  | BodyOutcome.raises _ =>
    TaskOutput.mk (PyValue.state ExecutionStates.ERROR_OCCURRED)
      ExecutionStates.ERROR_OCCURRED

/-- C3 counterexample: a worker body that completes without any failure but
returns the value ExecutionStates.ERROR_OCCURRED itself yields a TaskOutput
whose result equals the produced value, yet is_success is false, because
the shipped is_success compares the result field with the failure tokens. -/
theorem c3_counterexample :
    (invokeIsolatedOneShot
        (BodyOutcome.returns (PyValue.state ExecutionStates.ERROR_OCCURRED))).result =
      PyValue.state ExecutionStates.ERROR_OCCURRED ∧
    (invokeIsolatedOneShot
        (BodyOutcome.returns (PyValue.state ExecutionStates.ERROR_OCCURRED))).is_success =
      false := by
  decide

/-- C3 amended: for an on-demand isolated-process one-shot invocation whose
body completes without failure, the awaited TaskOutput carries the produced
value in its result field whenever that value is transferable, and
is_success is true provided the produced value is not itself a member of
the ExecutionStates enumeration. -/
theorem c3_on_demand_isolated_output (v : PyValue) :
    (transferable v = true →
      (invokeIsolatedOneShot (BodyOutcome.returns v)).result = v) ∧
    ((∀ e : ExecutionStates, v ≠ PyValue.state e) →
      (invokeIsolatedOneShot (BodyOutcome.returns v)).is_success = true) := by
  constructor
  · intro hv
    simp [invokeIsolatedOneShot, hv]
  · intro hne
    cases hv : transferable v with
    | true =>
      simp [invokeIsolatedOneShot, hv, TaskOutput.is_success, TaskOutput.have_crashed,
        TaskOutput.have_timeout, hne ExecutionStates.ERROR_OCCURRED,
        hne ExecutionStates.TIMEOUT]
    | false =>
      simp [invokeIsolatedOneShot, hv, TaskOutput.is_success, TaskOutput.have_crashed,
        TaskOutput.have_timeout]

/-- C3 witness: the isolated callable returning the integer 2 resolves to a
TaskOutput carrying 2 with is_success true. -/
theorem c3_on_demand_isolated_output_witness :
    (invokeIsolatedOneShot (BodyOutcome.returns (PyValue.int 2))).result =
      PyValue.int 2 ∧
    (invokeIsolatedOneShot (BodyOutcome.returns (PyValue.int 2))).is_success = true :=
  ⟨(c3_on_demand_isolated_output (PyValue.int 2)).1 rfl,
   (c3_on_demand_isolated_output (PyValue.int 2)).2 (by intro e; cases e <;> decide)⟩

/-- Modelled from the spec: one log record emitted at the scheduler or
harness boundary. -/
structure LogEntry where
  message : String
deriving DecidableEq, Repr

/-- Modelled from the spec: the cooperative scheduler boundary around one
scheduled invocation. A completed body is recorded as SUCCESS; an uncaught
failure is caught here, recorded as a TaskOutput with state ERROR_OCCURRED
(the failure token is stored in the result field because the shipped
is_success tests that field) and one log record, and is not re-raised. -/
def runScheduledInvocation (b : BodyOutcome) : TaskOutput × List LogEntry :=
  match b with
  | BodyOutcome.returns v => (TaskOutput.mk v ExecutionStates.SUCCESS, [])
  | BodyOutcome.raises msg =>
    (TaskOutput.mk (PyValue.state ExecutionStates.ERROR_OCCURRED)
       ExecutionStates.ERROR_OCCURRED,
     [LogEntry.mk msg])

/-- Modelled from the spec: the scheduler drives every scheduled invocation
through the boundary; each outcome is a function of its own body alone, so
no failure can terminate the scheduler or a sibling. -/
def runScheduledBatch (bodies : List BodyOutcome) : List (TaskOutput × List LogEntry) :=
  bodies.map runScheduledInvocation

/-- C7: the scheduler produces exactly one recorded outcome per scheduled
invocation, an invocation that raises is recorded as a TaskOutput with
execution_state ERROR_OCCURRED together with a log record, and every other
invocation outcome, sibling or not, is exactly the boundary applied to its
own body, so neither the scheduler nor any sibling is terminated by a
failure. -/
theorem c7_scheduler_contains_failures (bodies : List BodyOutcome) :
    (runScheduledBatch bodies).length = bodies.length ∧
    (∀ (i : Nat) (msg : String), bodies[i]? = some (BodyOutcome.raises msg) →
      (runScheduledBatch bodies)[i]? =
        some (TaskOutput.mk (PyValue.state ExecutionStates.ERROR_OCCURRED)
                ExecutionStates.ERROR_OCCURRED,
              [LogEntry.mk msg])) ∧
    (∀ (i : Nat) (b : BodyOutcome), bodies[i]? = some b →
      (runScheduledBatch bodies)[i]? = some (runScheduledInvocation b)) := by
  refine ⟨by simp [runScheduledBatch], ?_, ?_⟩
  · intro i msg h
    simp [runScheduledBatch, List.getElem?_map, h, runScheduledInvocation]
  · intro i b h
    simp [runScheduledBatch, List.getElem?_map, h]

/-- C7 witness: in a batch of two scheduled invocations where the second
raises, the first still completes as SUCCESS and the second is recorded as
ERROR_OCCURRED with a log record. -/
theorem c7_scheduler_contains_failures_witness :
    (runScheduledBatch [BodyOutcome.returns (PyValue.int 1),
        BodyOutcome.raises "boom"])[1]? =
      some (TaskOutput.mk (PyValue.state ExecutionStates.ERROR_OCCURRED)
              ExecutionStates.ERROR_OCCURRED,
            [LogEntry.mk "boom"]) ∧
    (runScheduledBatch [BodyOutcome.returns (PyValue.int 1),
        BodyOutcome.raises "boom"])[0]? =
      some (TaskOutput.mk (PyValue.int 1) ExecutionStates.SUCCESS, []) :=
  ⟨(c7_scheduler_contains_failures _).2.1 1 "boom" rfl,
   (c7_scheduler_contains_failures _).2.2 0 (BodyOutcome.returns (PyValue.int 1)) rfl⟩

/-- Modelled from the spec: tick start times of a recurring cooperative task
with interval T and no timeout. The interval is measured from the start of
one invocation to the start of the next; an invocation that overruns the
interval delays the next tick until it finishes (the tick queues behind the
running one and is never dropped), so the next start is the previous start
plus the larger of the interval and the invocation duration. -/
def tickStart (T : Nat) (dur : Nat → Nat) : Nat → Nat
  | 0 => 0
  | n + 1 => tickStart T dur n + max T (dur n)

/-- C8: consecutive tick start times are monotonically non-decreasing and
always at least T apart, every tick index has a start (none is skipped, an
overrun only delays the next start), and when every invocation returns in
less than T each consecutive pair of starts is exactly T apart. -/
theorem c8_recurring_tick_spacing (T : Nat) (dur : Nat → Nat) (n : Nat) :
    tickStart T dur n ≤ tickStart T dur (n + 1) ∧
    tickStart T dur n + T ≤ tickStart T dur (n + 1) ∧
    ((∀ k, dur k < T) → tickStart T dur (n + 1) = tickStart T dur n + T) := by
  refine ⟨?_, ?_, ?_⟩
  · simp [tickStart]
  · simp [tickStart, Nat.le_max_left]
  · intro h
    simp [tickStart, Nat.max_eq_left (Nat.le_of_lt (h n))]

/-- C8 witness: with interval 2 and every invocation lasting 1, the second
tick starts exactly 2 after the first. -/
theorem c8_recurring_tick_spacing_witness :
    tickStart 2 (fun _ => 1) 1 = tickStart 2 (fun _ => 1) 0 + 2 :=
  (c8_recurring_tick_spacing 2 (fun _ => 1) 0).2.2 (fun _ => by decide)

/-- Modelled from the spec: the shared state registry backing cross-process
attributes, a mapping from attribute name to value held in a process-shared
store; its entries are exactly the mirrored attributes. -/
structure Registry where
  entries : List (String × PyValue)
deriving DecidableEq, Repr

/-- Modelled from the spec: reading a mirrored attribute returns its
current value; reading a never-mirrored name returns nothing, which the
caller surfaces as a configuration error. -/
def Registry.read (r : Registry) (attr : String) : Option PyValue :=
  (r.entries.find? (fun p => p.1 == attr)).map (fun p => p.2)

/-- Modelled from the spec: mirror registers an attribute with its initial
value for cross-process visibility. -/
def Registry.mirror (r : Registry) (attr : String) (v : PyValue) : Registry :=
  ⟨(attr, v) :: r.entries⟩

/-- Modelled from the spec: writing a mirrored attribute updates the shared
store; writing a never-mirrored name is refused. -/
def Registry.write (r : Registry) (attr : String) (v : PyValue) : Option Registry :=
  if (r.read attr).isSome then some ⟨(attr, v) :: r.entries⟩ else Option.none

/-- Modelled from the spec: the orchestrator object as the shared state
registry sees it: whether the base initialization step has completed, the
attributes living in the parent process private memory, and the shared
registry. -/
structure Orchestrator where
  baseInitDone : Bool
  parentAttrs : List (String × PyValue)
  registry : Registry
deriving DecidableEq, Repr

/-- Modelled from the spec: assigning an attribute on the orchestrator
instance stores it in the parent private memory and, when the base
initialization step has already completed, additionally mirrors it into the
process-shared store. -/
def Orchestrator.setattr (o : Orchestrator) (attr : String) (v : PyValue) :
    Orchestrator :=
  if o.baseInitDone then
    ⟨true, (attr, v) :: o.parentAttrs, o.registry.mirror attr v⟩
  else
    ⟨false, (attr, v) :: o.parentAttrs, o.registry⟩

/-- Modelled from the spec: a sequence of attribute assignments applied in
order on the orchestrator instance. -/
def applyAssignments (o : Orchestrator) (assignments : List (String × PyValue)) :
    Orchestrator :=
  assignments.foldl (fun acc p => acc.setattr p.1 p.2) o

/-- Modelled from the spec: the base initialization step wires the shared
registry; every later assignment is mirrored. -/
def markBaseInitDone (o : Orchestrator) : Orchestrator :=
  ⟨true, o.parentAttrs, o.registry⟩

/-- Modelled from the spec: constructing an orchestrator subclass applies
the assignments made before the base initialization step, then the base
initialization step, then the assignments made after it. -/
def constructOrchestrator (preInit postInit : List (String × PyValue)) :
    Orchestrator :=
  applyAssignments (markBaseInitDone (applyAssignments ⟨false, [], ⟨[]⟩⟩ preInit))
    postInit

/-- Modelled from the spec: an isolated worker reads an attribute through
the process-shared store only. -/
def workerRead (o : Orchestrator) (attr : String) : Option PyValue :=
  o.registry.read attr

/-- Modelled from the spec: an isolated worker writes an attribute through
the process-shared store only; the write is refused if the attribute was
never mirrored. -/
def workerWrite (o : Orchestrator) (attr : String) (v : PyValue) : Option Registry :=
  o.registry.write attr v

/-- Assignment does not change whether base initialization has completed. -/
theorem setattr_baseInitDone (o : Orchestrator) (attr : String) (v : PyValue) :
    (o.setattr attr v).baseInitDone = o.baseInitDone := by
  cases h : o.baseInitDone <;> simp [Orchestrator.setattr, h]

/-- Assignments before base initialization never touch the registry. -/
theorem applyAssignments_registry_of_not_init (assignments : List (String × PyValue)) :
    ∀ o : Orchestrator, o.baseInitDone = false →
      (applyAssignments o assignments).registry = o.registry := by
  induction assignments with
  | nil => intro o _; rfl
  | cons p rest ih =>
    intro o h
    have hstep : (o.setattr p.1 p.2).registry = o.registry := by
      simp [Orchestrator.setattr, h]
    have hflag : (o.setattr p.1 p.2).baseInitDone = false := by
      rw [setattr_baseInitDone]; exact h
    calc (applyAssignments (o.setattr p.1 p.2) rest).registry
        = (o.setattr p.1 p.2).registry := ih (o.setattr p.1 p.2) hflag
      _ = o.registry := hstep

/-- Reading after a mirror step sees the new attribute or falls back to the
previous registry. -/
theorem read_mirror (r : Registry) (a attr : String) (v : PyValue) :
    (r.mirror a v).read attr = if a = attr then some v else r.read attr := by
  by_cases h : a = attr
  · rw [if_pos h]
    have hb : (a == attr) = true := by simp [h]
    simp [Registry.mirror, Registry.read, List.find?, hb]
  · rw [if_neg h]
    have hb : (a == attr) = false := by simp [h]
    simp [Registry.mirror, Registry.read, List.find?, hb]

/-- After assignments applied once base initialization is done, a name is
readable from the registry iff it was just assigned or was readable
before. -/
theorem applyAssignments_read_of_init (assignments : List (String × PyValue)) :
    ∀ o : Orchestrator, o.baseInitDone = true → ∀ attr : String,
      ((applyAssignments o assignments).registry.read attr).isSome = true ↔
        (attr ∈ assignments.map Prod.fst ∨ (o.registry.read attr).isSome = true) := by
  induction assignments with
  | nil => intro o _ attr; simp [applyAssignments]
  | cons p rest ih =>
    intro o h attr
    have hflag : (o.setattr p.1 p.2).baseInitDone = true := by
      rw [setattr_baseInitDone]; exact h
    have hreg : (o.setattr p.1 p.2).registry = o.registry.mirror p.1 p.2 := by
      simp [Orchestrator.setattr, h]
    have hrec := ih (o.setattr p.1 p.2) hflag attr
    rw [hreg, read_mirror] at hrec
    have hunfold : applyAssignments o (p :: rest) =
        applyAssignments (o.setattr p.1 p.2) rest := rfl
    rw [hunfold, List.map_cons, List.mem_cons]
    by_cases hp : p.1 = attr
    · rw [if_pos hp] at hrec
      rw [hrec]
      constructor
      · intro _; exact Or.inl (Or.inl hp.symm)
      · intro _; exact Or.inr rfl
    · rw [if_neg hp] at hrec
      rw [hrec]
      constructor
      · rintro (hl | hr)
        · exact Or.inl (Or.inr hl)
        · exact Or.inr hr
      · rintro ((heq | hl) | hr)
        · exact absurd heq.symm hp
        · exact Or.inl hl
        · exact Or.inr hr

/-- Assignments only add to the parent-private attribute record. -/
theorem applyAssignments_parentAttrs_mono (assignments : List (String × PyValue)) :
    ∀ (o : Orchestrator) (attr : String), attr ∈ o.parentAttrs.map Prod.fst →
      attr ∈ (applyAssignments o assignments).parentAttrs.map Prod.fst := by
  induction assignments with
  | nil => intro o attr h; exact h
  | cons p rest ih =>
    intro o attr h
    have hcons : (o.setattr p.1 p.2).parentAttrs = (p.1, p.2) :: o.parentAttrs := by
      cases hb : o.baseInitDone <;> simp [Orchestrator.setattr, hb]
    have hstep : attr ∈ (o.setattr p.1 p.2).parentAttrs.map Prod.fst := by
      rw [hcons, List.map_cons]
      exact List.mem_cons_of_mem _ h
    exact ih (o.setattr p.1 p.2) attr hstep

/-- Every assigned name ends up in the parent-private attribute record. -/
theorem applyAssignments_parentAttrs_of_mem (assignments : List (String × PyValue)) :
    ∀ (o : Orchestrator) (attr : String), attr ∈ assignments.map Prod.fst →
      attr ∈ (applyAssignments o assignments).parentAttrs.map Prod.fst := by
  induction assignments with
  | nil => intro o attr h; cases h
  | cons p rest ih =>
    intro o attr h
    rw [List.map_cons] at h
    have hcons : (o.setattr p.1 p.2).parentAttrs = (p.1, p.2) :: o.parentAttrs := by
      cases hb : o.baseInitDone <;> simp [Orchestrator.setattr, hb]
    rcases List.mem_cons.mp h with heq | hmem
    · refine applyAssignments_parentAttrs_mono rest (o.setattr p.1 p.2) attr ?_
      rw [hcons, List.map_cons, heq]
      exact List.mem_cons_self p.1 _
    · exact ih (o.setattr p.1 p.2) attr hmem

/-- A write through the shared store succeeds exactly when the name is
readable there. -/
theorem write_isSome_iff_read_isSome (r : Registry) (attr : String) (v : PyValue) :
    (r.write attr v).isSome = (r.read attr).isSome := by
  by_cases h : (r.read attr).isSome <;> simp [Registry.write, h]

/-- C2: in a constructed orchestrator, every attribute assigned after the
base initialization step is mirrored into the process-shared store, where an
isolated worker can both read it and write it; every attribute assigned only
before that step is absent from the shared store, hence invisible to
isolated workers, while still recorded in the parent-private attributes. -/
theorem c2_shared_attribute_visibility (preInit postInit : List (String × PyValue))
    (attr : String) :
    (attr ∈ postInit.map Prod.fst →
      (workerRead (constructOrchestrator preInit postInit) attr).isSome = true ∧
      ∀ v : PyValue,
        (workerWrite (constructOrchestrator preInit postInit) attr v).isSome = true) ∧
    (attr ∉ postInit.map Prod.fst →
      workerRead (constructOrchestrator preInit postInit) attr = Option.none ∧
      (attr ∈ preInit.map Prod.fst →
        attr ∈ (constructOrchestrator preInit postInit).parentAttrs.map Prod.fst)) := by
  have hprereg : (applyAssignments ⟨false, [], ⟨[]⟩⟩ preInit).registry =
      (⟨[]⟩ : Registry) :=
    applyAssignments_registry_of_not_init preInit ⟨false, [], ⟨[]⟩⟩ rfl
  have hflag : (markBaseInitDone (applyAssignments ⟨false, [], ⟨[]⟩⟩ preInit)).baseInitDone =
      true := rfl
  have hempty :
      ((markBaseInitDone (applyAssignments ⟨false, [], ⟨[]⟩⟩ preInit)).registry.read
        attr) = Option.none := by
    show ((applyAssignments ⟨false, [], ⟨[]⟩⟩ preInit).registry.read attr) = Option.none
    rw [hprereg]
    simp [Registry.read, List.find?]
  have hiff := applyAssignments_read_of_init postInit
    (markBaseInitDone (applyAssignments ⟨false, [], ⟨[]⟩⟩ preInit)) hflag attr
  rw [hempty] at hiff
  simp only [Option.isSome_none, Bool.false_eq_true, or_false] at hiff
  constructor
  · intro hmem
    have hread : ((constructOrchestrator preInit postInit).registry.read attr).isSome =
        true := hiff.mpr hmem
    refine ⟨hread, ?_⟩
    intro v
    show ((constructOrchestrator preInit postInit).registry.write attr v).isSome = true
    rw [write_isSome_iff_read_isSome]
    exact hread
  · intro hnot
    constructor
    · have hns : ¬ ((constructOrchestrator preInit postInit).registry.read attr).isSome =
          true := fun hs => hnot (hiff.mp hs)
      exact Option.not_isSome_iff_eq_none.mp hns
    · intro hpre
      have h1 : attr ∈
          (applyAssignments (⟨false, [], ⟨[]⟩⟩ : Orchestrator) preInit).parentAttrs.map
            Prod.fst :=
        applyAssignments_parentAttrs_of_mem preInit ⟨false, [], ⟨[]⟩⟩ attr hpre
      exact applyAssignments_parentAttrs_mono postInit
        (markBaseInitDone (applyAssignments ⟨false, [], ⟨[]⟩⟩ preInit)) attr h1

/-- C2 witness: with local_attr1 assigned before the base initialization
step and share_attr1 after it, a worker can read and write share_attr1 while
local_attr1 is invisible to workers. -/
theorem c2_shared_attribute_visibility_witness :
    (workerRead
        (constructOrchestrator [("local_attr1", PyValue.int 0)]
          [("share_attr1", PyValue.int 0)]) "share_attr1").isSome = true ∧
    (workerWrite
        (constructOrchestrator [("local_attr1", PyValue.int 0)]
          [("share_attr1", PyValue.int 0)]) "share_attr1" (PyValue.int 7)).isSome =
      true ∧
    workerRead
        (constructOrchestrator [("local_attr1", PyValue.int 0)]
          [("share_attr1", PyValue.int 0)]) "local_attr1" = Option.none :=
  ⟨((c2_shared_attribute_visibility [("local_attr1", PyValue.int 0)]
      [("share_attr1", PyValue.int 0)] "share_attr1").1 (by decide)).1,
   ((c2_shared_attribute_visibility [("local_attr1", PyValue.int 0)]
      [("share_attr1", PyValue.int 0)] "share_attr1").1 (by decide)).2 (PyValue.int 7),
   ((c2_shared_attribute_visibility [("local_attr1", PyValue.int 0)]
      [("share_attr1", PyValue.int 0)] "local_attr1").2 (by decide)).1⟩

/-- C1 amended witness: on a TaskOutput carrying the integer 3 with state
SUCCESS, both disequalities hold and is_success evaluates to true. -/
theorem c1_is_success_characterization_witness :
    (TaskOutput.mk (PyValue.int 3) ExecutionStates.SUCCESS).is_success = true :=
  (c1_is_success_characterization
      (TaskOutput.mk (PyValue.int 3) ExecutionStates.SUCCESS)).mpr
    ⟨by decide, by decide⟩

/-- C10 witness: on a TaskOutput carrying None with state SUCCESS, neither
failure flag holds and is_success evaluates to true. -/
theorem c10_exclusive_failure_flags_witness :
    (TaskOutput.mk PyValue.none ExecutionStates.SUCCESS).is_success = true :=
  ((c10_exclusive_failure_flags
      (TaskOutput.mk PyValue.none ExecutionStates.SUCCESS)).2).mpr
    ⟨by decide, by decide⟩
